import Mathlib

/-!
Verification development for the `generator` package of the nico-log
static-site generator.  The Python modules `generator/lib/utils.py`,
`generator/lib/feeds.py`, `generator/lib/now_playing.py` and
`generator/lib/status.py` are shallowly embedded below: JSON documents
become the inductive `JVal`, machine floats become `ℚ`, fallible calls
become `Except`/`Option`, and outcomes of network / filesystem / clock
interactions are passed in explicitly as environment records.  String
primitives (`strip`, `lower`, `split`, ...) are implemented structurally
over character lists so that every definition evaluates inside the
kernel.
-/

/-- Characters Python's default `str.strip` removes. -/
def is_ws (c : Char) : Bool :=
  c == ' ' || c == '\t' || c == '\n' || c == '\r' || c == '\x0b' || c == '\x0c'

/-- Python `str.strip()`. -/
def py_strip (s : String) : String :=
  .mk (((s.data.dropWhile is_ws).reverse.dropWhile is_ws).reverse)

/-- Python `str.lower()` (ASCII range, all the sentinels compared here). -/
def py_lower (s : String) : String :=
  .mk (s.data.map Char.toLower)

/-- Python `s.startswith(p)`. -/
def py_starts_with (s p : String) : Bool :=
  p.data.isPrefixOf s.data

/-- Helper of `split_once`: split a character list at the first
occurrence of `sep`. -/
def split_once_aux (sep : List Char) : List Char → Option (List Char × List Char)
  | [] => none
  | c :: rest =>
    if sep.isPrefixOf (c :: rest) then some ([], (c :: rest).drop sep.length)
    else
      match split_once_aux sep rest with
      | some p => some (c :: p.1, p.2)
      | none => none

/-- Python `s.split(sep, 1)` for a `sep` known to occur, `none` when it
does not occur (so `some` also decides Python's `sep in s`). -/
def split_once (s sep : String) : Option (String × String) :=
  (split_once_aux sep.data s.data).map (fun p => (.mk p.1, .mk p.2))

/-- Python `s.rstrip("/")`. -/
def py_rstrip_slash (s : String) : String :=
  .mk ((s.data.reverse.dropWhile (fun c => c == '/')).reverse)

/-- Digit-run parser on characters: `some` exactly on non-empty all-digit
runs. -/
def py_to_nat_chars (cs : List Char) : Option Nat :=
  if cs ≠ [] ∧ cs.all (fun c => 47 < c.toNat ∧ c.toNat < 58) then
    some (cs.foldl (fun n c => n * 10 + (c.toNat - 48)) 0)
  else none

/-- Python `str.splitlines()` for newline-separated probe output. -/
def split_lines_aux (sep : Char) : List Char → List (List Char)
  | [] => [[]]
  | x :: rest =>
    let r := split_lines_aux sep rest
    if x == sep then [] :: r
    else
      match r with
      | h :: t => (x :: h) :: t
      | [] => [[x]]

/-- The stripped, emptiness-filtered lines of a probe's stdout
(`[line.strip() for line in stdout.splitlines() if line.strip()]`). -/
def ssh_stdout_lines (stdout : String) : List String :=
  (((split_lines_aux '\n' stdout.data).map (fun cs => py_strip (.mk cs))).filter
    (fun l => l ≠ ""))

/-- JSON value as read by `json.load` / produced by `response.json()`.
Objects are association lists in insertion order with distinct keys
(CPython dicts); lookups take the first match. -/
inductive JVal where
  | null
  | bool (b : Bool)
  | num (q : ℚ)
  | str (s : String)
  | arr (xs : List JVal)
  | obj (fields : List (String × JVal))

/-- Dictionary lookup, `d.get(k)` restricted to object values: `none`
models both a missing key and a non-dict receiver (call sites below are
guarded by `isinstance(..., dict)` checks exactly where the source is). -/
def jGet : JVal → String → Option JVal
  | .obj fs, k => (fs.find? (fun p => p.1 = k)).map (fun p => p.2)
  | _, _ => none

/-- Python `d.get(k, default)`. -/
def jGetD (d : JVal) (k : String) (default : JVal) : JVal :=
  (jGet d k).getD default

/-- Python `d.get(k)`: a missing key yields `None`. -/
def jGet0 (d : JVal) (k : String) : JVal :=
  jGetD d k .null

/-- Python truthiness of a JSON value. -/
def truthy : JVal → Bool
  | .null => false
  | .bool b => b
  | .num q => q != 0
  | .str s => s != ""
  | .arr xs => !xs.isEmpty
  | .obj fs => !fs.isEmpty

/-- Python `a or b` on JSON values: the first operand when truthy. -/
def pyOr (a b : JVal) : JVal :=
  if truthy a then a else b

/-- Python `isinstance(v, dict)`. -/
def isJObj : JVal → Bool
  | .obj _ => true
  | _ => false

/-- Python `str(v)`.  Strings map to themselves, `None`/booleans to their
CPython renderings; the renderings of numbers and composite values are
abbreviated (no claim below inspects that text, only its truthiness,
which is preserved: the renderings are non-empty). -/
def pyStr : JVal → String
  | .null => "None"
  | .bool true => "True"
  | .bool false => "False"
  | .num _ => "<num>"
  | .str s => s
  | .arr _ => "[...]"
  | .obj _ => "\x7b...\x7d"

/-- Embeds `now_playing._clean_text`: `""` for `None`, else `str(value).strip()`. -/
def clean_text (value : JVal) : String :=
  match value with
  | .null => ""
  | v => py_strip (pyStr v)

/-- Embeds `utils.is_cache_fresh` (utils.py:54-58).  The filesystem and
clock interactions are the parameters: `file_exists` is `path.exists()`,
`mtime` is `path.stat().st_mtime` and `now` is `time.time()`. -/
def is_cache_fresh (file_exists : Bool) (mtime now : ℚ) (ttl_seconds : Int) : Bool :=
  if ttl_seconds ≤ 0 ∨ file_exists = false then false
  else decide (now - mtime ≤ (ttl_seconds : ℚ))

/-- The `fallback` argument of `utils.fetch_json_with_cache`: either a
plain JSON value or a callable producing one (`callable(fallback)`). -/
inductive Fallback where
  | value (v : JVal)
  | func (f : Unit → JVal)

/-- The value `fetch_json_with_cache` returns on its fallback branch:
`fallback()` when callable, else `fallback` itself. -/
def fallback_value : Fallback → JVal
  | .value v => v
  | .func f => f ()

/-- Result of one resolution of the cached-fetch ladder: the payload, the
provenance tag, and the JSON document written to the cache file (if any). -/
structure ResolveResult where
  payload : JVal
  provenance : String
  cacheWrite : Option JVal

/-- Embeds `utils.fetch_json_with_cache` (utils.py:61-81).  `cached` is
the result of `read_json(cache_path, None)` (already `none` for a missing
or malformed file), `fresh` the result of the `is_cache_fresh` call, and
`fetcher` the outcome the fetcher callable would have (`.error` models it
raising any exception).  The return type is total: no exception from the
fetcher escapes. -/
def fetch_json_with_cache (cached : Option JVal) (fresh : Bool)
    (fetcher : Except Unit JVal) (fallback : Fallback) : ResolveResult :=
  match cached, fresh with
  | some c, true => ⟨c, "cache", none⟩
  | _, _ =>
    match fetcher with
    | .ok freshPayload => ⟨freshPayload, "live", some freshPayload⟩
    | .error _ =>
      match cached with
      | some c => ⟨c, "stale", none⟩
      | none => ⟨fallback_value fallback, "fallback", none⟩

/-- Names of the functions defined at module level in
`generator/lib/utils.py`.  Note `format_datetime` is present but
`format_date` is not: an attribute access `utils.format_date` raises
`AttributeError` at runtime. -/
def utils_function_names : List String :=
  ["ensure_dir", "read_text", "read_json", "write_json", "load_yaml",
   "load_lines", "is_cache_fresh", "fetch_json_with_cache", "to_datetime",
   "format_datetime", "slugify", "excerpt_from_markdown", "clean_output_dir",
   "copy_static_tree", "format_uptime", "pick_tiny_thing"]

/-- Outcomes of `utils.to_datetime` composed with the renderings the
adapters apply to it.  `dateutil` parsing and wall-clock defaults are
environment-dependent, so they are abstracted: `iso` models
`to_datetime(v).isoformat()`, `label` models
`to_datetime(v).strftime("%Y-%m-%d %H:%M")` and `ts` models the
timestamp ordering key.  Theorems below hold for every instantiation. -/
structure DateFns where
  iso : JVal → String
  label : JVal → String
  ts : JVal → Int

/-- Embeds `now_playing._unavailable_now` (now_playing.py:24-33). -/
structure NormalizedNow where
  track : String
  artist : String
  url : String
  started_at : String
  started_label : String
  available : Bool
  live : Bool

/-- The dictionary `now_playing._unavailable_now()` returns. -/
def unavailable_now : NormalizedNow :=
  ⟨"No disponible", "", "", "", "", false, false⟩

/-- Embeds `now_playing._normalize_now` (now_playing.py:36-54). -/
def normalize_now (df : DateFns) (item : JVal) (live : Bool) : NormalizedNow :=
  let started_raw := jGet0 item "started_at"
  let p := if truthy started_raw then (df.iso started_raw, df.label started_raw) else ("", "")
  { track := pyStr (jGetD item "track" (.str "No disponible"))
    artist := py_strip (pyStr (jGetD item "artist" (.str "")))
    url := py_strip (pyStr (jGetD item "url" (.str "")))
    started_at := p.1
    started_label := p.2
    available := true
    live := live }

/-- One row of the normalized now-playing history
(now_playing.py:68-76): the five fixed presentation fields. -/
structure HistRow where
  track : String
  artist : String
  url : String
  played_at : String
  played_label : String

/-- The row built for one history item in `now_playing._normalize_history`. -/
def normalize_history_row (df : DateFns) (item : JVal) : HistRow :=
  let played_raw := jGet0 item "played_at"
  let p := if truthy played_raw then (df.iso played_raw, df.label played_raw) else ("", "")
  { track := pyStr (jGetD item "track" (.str "Desconocido"))
    artist := pyStr (jGetD item "artist" (.str "Desconocido"))
    url := pyStr (jGetD item "url" (.str ""))
    played_at := p.1
    played_label := p.2 }

/-- Embeds `now_playing._normalize_history` (now_playing.py:57-77): the
first 30 items, each normalized.  Items are treated as dicts via `jGet`,
matching the `list[dict]` annotation of the source (theorems restrict to
dict items where it matters). -/
def normalize_history (df : DateFns) (history : List JVal) : List HistRow :=
  (history.take 30).map (normalize_history_row df)

/-- Embeds `now_playing._split_title` (now_playing.py:127-133). -/
def split_title (value : String) : String × String :=
  let cleaned := py_strip value
  match split_once cleaned " - " with
  | some (a, t) => (py_strip a, py_strip t)
  | none =>
    match split_once cleaned " – " with
    | some (a, t) => (py_strip a, py_strip t)
    | none =>
      match split_once cleaned " — " with
      | some (a, t) => (py_strip a, py_strip t)
      | none => ("", cleaned)

/-- Embeds `now_playing._extract_now_payload` (now_playing.py:136-171);
the result is the four-field dict the source builds. -/
def extract_now_payload (record : JVal) (default_url : String) : JVal :=
  let title := clean_text (jGet0 record "title")
  let track0 := clean_text (pyOr (jGet0 record "track") (jGet0 record "song"))
  let artist0 :=
    clean_text (pyOr (jGet0 record "artist")
      (pyOr (jGet0 record "server_name") (jGet0 record "dj")))
  let p :=
    if title ≠ "" ∧ (track0 = "" ∨ artist0 = "") then
      let q := split_title title
      let a := if artist0 = "" ∧ q.1 ≠ "" then q.1 else artist0
      let t := if track0 = "" then (if q.2 ≠ "" then q.2 else title) else track0
      (t, a)
    else (track0, artist0)
  let track := if p.1 ≠ "" then p.1 else title
  let artist := if p.2 ≠ "" then p.2 else "Desconocido"
  let stream_url :=
    clean_text (pyOr (jGet0 record "url")
      (pyOr (jGet0 record "listenurl")
        (pyOr (jGet0 record "server_url") (pyOr (.str default_url) (.str "")))))
  let started_at :=
    pyOr (jGet0 record "started_at")
      (pyOr (jGet0 record "stream_start")
        (pyOr (jGet0 record "started") (pyOr (jGet0 record "timestamp") (.str ""))))
  .obj [("track", .str track), ("artist", .str artist),
        ("url", .str stream_url), ("started_at", started_at)]

/-- Embeds `now_playing._extract_history_payload` (now_playing.py:174-188). -/
def extract_history_payload (record : JVal) (default_url : String) : JVal :=
  let np := extract_now_payload record default_url
  let played_at :=
    pyOr (jGet0 record "played_at")
      (pyOr (jGet0 record "started_at")
        (pyOr (jGet0 record "stream_start") (pyOr (jGet0 record "timestamp") (.str ""))))
  .obj [("track", jGet0 np "track"), ("artist", jGet0 np "artist"),
        ("url", jGet0 np "url"), ("played_at", played_at)]

/-- Embeds `now_playing._extract_sources` (now_playing.py:191-205). -/
def extract_sources (payload : JVal) : List JVal :=
  let fromKey := fun (k : String) =>
    match jGet payload k with
    | some (.arr xs) => xs.filter isJObj
    | _ => []
  fromKey "sources" ++ fromKey "mounts" ++
    (match jGet payload "icestats" with
     | some (.obj ifs) =>
       match jGet (.obj ifs) "source" with
       | some (.obj sfs) => [.obj sfs]
       | some (.arr xs) => xs.filter isJObj
       | _ => []
     | _ => [])

/-- Models `urllib.parse.urlparse(raw).path` for the replacement step of
`_normalize_mount`: when `raw` has the shape `scheme://netloc...` with a
non-empty scheme and netloc, the path after the netloc (possibly empty)
is kept; otherwise `raw` is unchanged. -/
def url_path_if_absolute (raw : String) : String :=
  match split_once raw "://" with
  | none => raw
  | some (scheme, rest) =>
    if scheme = "" then raw
    else
      match split_once rest "/" with
      | none => if rest = "" then raw else ""
      | some (netloc, p) => if netloc = "" then raw else "/" ++ p

/-- Embeds `now_playing._normalize_mount` (now_playing.py:114-124). -/
def normalize_mount (value : JVal) : String :=
  let raw := py_strip (pyStr (pyOr value (.str "")))
  if raw = "" then ""
  else
    let raw2 := url_path_if_absolute raw
    let raw3 := if py_starts_with raw2 "/" then raw2 else "/" ++ raw2
    let n := py_rstrip_slash raw3
    if n = "" then "/" else n

/-- Embeds `now_playing._matches_mount` (now_playing.py:208-222). -/
def matches_mount (source : JVal) (mount : String) : Bool :=
  let target := normalize_mount (.str mount)
  if target = "" then true
  else
    [jGet0 source "mount", jGet0 source "listenurl",
     jGet0 source "server_url", jGet0 source "url"].any
      (fun c => normalize_mount c = target)

/-- Embeds `now_playing._select_source` (now_playing.py:225-229). -/
def select_source (sources : List JVal) (mount : String) : Option JVal :=
  match sources.find? (fun s => matches_mount s mount) with
  | some s => some s
  | none => sources.head?

/-- The `default_url` local of `_parse_source_payload` (now_playing.py:242). -/
def np_default_url (payload : JVal) : String :=
  py_strip (pyStr (pyOr (jGet0 payload "url") (pyOr (jGet0 payload "listenurl") (.str ""))))

/-- The now-payload candidate `_parse_source_payload` holds right before
its validity gate (now_playing.py:243-253): the nested `now` object or
the flat fields, overridden by a truthy selected stream source. -/
def now_candidate (payload : JVal) (mount : String) : Option JVal :=
  let default_url := np_default_url payload
  let now0 : Option JVal :=
    match jGet payload "now" with
    | some (.obj fs) => some (extract_now_payload (.obj fs) default_url)
    | _ =>
      if ["track", "artist", "song", "title"].any
          (fun k => clean_text (jGet0 payload k) ≠ "") then
        some (extract_now_payload payload default_url)
      else none
  match select_source (extract_sources payload) mount with
  | some s => if truthy s then some (extract_now_payload s default_url) else now0
  | none => now0

/-- Embeds `now_playing._parse_source_payload` (now_playing.py:232-277):
the optional playable now item (after the empty/silence validity gate)
and the extracted history rows. -/
def parse_source_payload (payload : JVal) (mount : String) : Option JVal × List JVal :=
  match payload with
  | .obj _ =>
    match jGet payload "success" with
    | some (.bool false) => (none, [])
    | _ =>
      let now1 := now_candidate payload mount
      let raw_history : List JVal :=
        match jGet payload "history" with
        | some (.arr xs) => xs
        | _ =>
          match jGet payload "now_history" with
          | some (.arr xs) => xs
          | _ => []
      let item_default_url :=
        match now1 with
        | some np => pyStr (jGet0 np "url")
        | none => np_default_url payload
      let history_payload :=
        (raw_history.filter isJObj).map
          (fun it => extract_history_payload it item_default_url)
      match now1 with
      | none => (none, history_payload)
      | some np =>
        let tn := py_lower (clean_text (jGet0 np "track"))
        if tn = "" then (none, history_payload)
        else if tn = "silence" ∨ tn = "silencio" then (none, history_payload)
        else (some np, history_payload)
  | _ => (none, [])

/-- Environment of one `_fetch_from_source_endpoint` run: the
configuration, the `read_json` of `cache/now_source.json`, the outcome of
the `is_cache_fresh` call on it, and the outcome the network fetch
(`_fetch_json_with_diagnostics`) would have — `.error` models it raising
(connection error, non-2xx, JSON parse failure). -/
structure NowEnv where
  config : JVal
  cachedPayload : Option JVal
  cacheFresh : Bool
  fetchResult : Except Unit JVal

/-- The `now_playing` settings section (now_playing.py:295-297). -/
def np_settings (config : JVal) : JVal :=
  match jGet config "now_playing" with
  | some (.obj fs) => .obj fs
  | _ => .obj []

/-- The stripped `source_url` setting (now_playing.py:299). -/
def np_source_url (config : JVal) : String :=
  py_strip (pyStr (jGetD (np_settings config) "source_url" (.str "")))

/-- The stripped `mount` setting (now_playing.py:309). -/
def np_mount (config : JVal) : String :=
  py_strip (pyStr (jGetD (np_settings config) "mount" (.str "")))

/-- Embeds `now_playing._resolve_source_url` (now_playing.py:94-104). -/
def resolve_source_url (config : JVal) (source_url : String) : String :=
  if ¬ py_starts_with source_url "/" then source_url
  else
    let site :=
      match jGet config "site" with
      | some (.obj fs) => JVal.obj fs
      | _ => JVal.obj []
    let domain := py_rstrip_slash (py_strip (pyStr (jGetD site "domain" (.str ""))))
    if domain = "" then "" else domain ++ source_url

/-- Tail of `_fetch_from_source_endpoint` from line 348 on: parse the
resolved payload (`payload or {}`), return the unavailable state when no
playable now item remains, else the normalized now with history attached
only on a live resolution. -/
def finish_payload (df : DateFns) (mount : String) (payload : JVal)
    (payload_source : String) : NormalizedNow × List HistRow × String :=
  match parse_source_payload (pyOr payload (.obj [])) mount with
  | (none, _) => (unavailable_now, [], payload_source ++ "/none")
  | (some np, hist) =>
    let live := payload_source == "live"
    let nn := normalize_now df np live
    if live then (nn, normalize_history df hist, payload_source ++ "/live")
    else (nn, [], payload_source ++ "/disabled")

/-- Embeds `now_playing._fetch_from_source_endpoint`
(now_playing.py:290-360).  The first component is `none` when the
function returns `None` (unset `source_url`, fall through to the legacy
endpoints); the second component is the JSON document written to
`cache/now_source.json` (`none`: the cache file is left unchanged).
A fetched payload on which `.get` would raise (a non-dict) parses to no
playable item, landing in the same `except` branch the `AttributeError`
would reach. -/
def fetch_from_source_endpoint (df : DateFns) (env : NowEnv) :
    Option (NormalizedNow × List HistRow × String) × Option JVal :=
  let source_url := np_source_url env.config
  if source_url = "" then (none, none)
  else if resolve_source_url env.config source_url = "" then
    (some (unavailable_now, [], "unavailable"), none)
  else
    let mount := np_mount env.config
    match env.cachedPayload, env.cacheFresh with
    | some c, true => (some (finish_payload df mount c "cache"), none)
    | _, _ =>
      match env.fetchResult with
      | .ok fetched =>
        match (parse_source_payload fetched mount).1 with
        | some _ => (some (finish_payload df mount fetched "live"), some fetched)
        | none =>
          match env.cachedPayload with
          | some c => (some (finish_payload df mount c "stale"), none)
          | none => (some (unavailable_now, [], "unavailable"), none)
      | .error _ =>
        match env.cachedPayload with
        | some c => (some (finish_payload df mount c "stale"), none)
        | none => (some (unavailable_now, [], "unavailable"), none)

/-- Environment of one `_fetch_legacy_endpoints` run: cache reads,
freshness outcomes and fetch outcomes for the `now_playing.json` and
`now_history.json` files, plus the `path.exists()` results used for the
`cache-local` / `missing` tags. -/
structure LegacyEnv where
  nowCached : Option JVal
  nowFresh : Bool
  nowFetch : Except Unit JVal
  nowFileExists : Bool
  histCached : Option JVal
  histFresh : Bool
  histFetch : Except Unit JVal
  histFileExists : Bool

/-- The `(now_payload, now_source)` resolution of the legacy path
(now_playing.py:376-385). -/
def legacy_now_resolution (config : JVal) (env : LegacyEnv) : JVal × String :=
  let now_url := py_strip (pyStr (jGetD config "now_playing_url" (.str "")))
  if now_url ≠ "" then
    let r := fetch_json_with_cache env.nowCached env.nowFresh env.nowFetch (.value (.obj []))
    (r.payload, r.provenance)
  else
    (env.nowCached.getD (.obj []), if env.nowFileExists then "cache-local" else "missing")

/-- The `(history_payload, history_source)` resolution of the legacy path
(now_playing.py:400-409); the source only evaluates it on the live
branch, where `fetch_legacy_endpoints` below consumes it. -/
def legacy_hist_resolution (config : JVal) (env : LegacyEnv) : JVal × String :=
  let history_url := py_strip (pyStr (jGetD config "now_history_url" (.str "")))
  if history_url ≠ "" then
    let r := fetch_json_with_cache env.histCached env.histFresh env.histFetch (.value (.arr []))
    (r.payload, r.provenance)
  else
    (env.histCached.getD (.arr []), if env.histFileExists then "cache-local" else "missing")

/-- Embeds `now_playing._fetch_legacy_endpoints` (now_playing.py:363-415). -/
def fetch_legacy_endpoints (df : DateFns) (config : JVal) (env : LegacyEnv) :
    NormalizedNow × List HistRow × String :=
  let nowRes := legacy_now_resolution config env
  let now_payload := if isJObj nowRes.1 then nowRes.1 else JVal.obj []
  let now_source := nowRes.2
  match (parse_source_payload now_payload "").1 with
  | none => (unavailable_now, [], now_source ++ "/none")
  | some cand =>
    let live := now_source == "live"
    let nn := normalize_now df cand live
    if live then
      let histRes := legacy_hist_resolution config env
      let hist_list := match histRes.1 with | .arr xs => xs | _ => []
      (nn, normalize_history df hist_list, now_source ++ "/" ++ histRes.2)
    else (nn, [], now_source ++ "/disabled")

/-- Embeds `now_playing.fetch_now` (now_playing.py:418-426), paired with
the document written to `cache/now_source.json` (if any); legacy cache
writes are dropped here since no claim concerns them. -/
def fetch_now (df : DateFns) (npEnv : NowEnv) (lgEnv : LegacyEnv) :
    (NormalizedNow × List HistRow × String) × Option JVal :=
  match fetch_from_source_endpoint df npEnv with
  | (some r, w) => (r, w)
  | (none, w) => (fetch_legacy_endpoints df npEnv.config lgEnv, w)

/-- The per-item sorting key of the feeds fetcher:
`utils.to_datetime(item["published"])` (feeds.py:136). -/
def published_key (df : DateFns) (item : JVal) : Int :=
  df.ts (jGet0 item "published")

/-- Stable insertion step for a descending sort: `x` (originally earlier)
is placed before the first element whose key is not strictly greater. -/
def insert_desc (key : JVal → Int) (x : JVal) : List JVal → List JVal
  | [] => [x]
  | y :: ys => if key x < key y then y :: insert_desc key x ys else x :: y :: ys

/-- Models CPython's stable `list.sort(key=..., reverse=True)`
(feeds.py:136): a stable descending sort is extensionally unique
(elements ordered by key descending, original position ascending), so
this structural insertion sort embeds it. -/
def sort_desc (key : JVal → Int) : List JVal → List JVal
  | [] => []
  | x :: rest => insert_desc key x (sort_desc key rest)

/-- The items the feeds fetcher accumulates (feeds.py:121-131): per feed,
skip a blank URL, and swallow any error of `_fetch_feed` (whose outcome
is the oracle `ffetch`, keyed by the feed entry). -/
def feeds_collected (ffetch : JVal → Except Unit (List JVal))
    (feed_list : List JVal) : List JVal :=
  feed_list.flatMap (fun feed =>
    let url := py_strip (pyStr (jGetD feed "url" (.str "")))
    if url = "" then []
    else
      match ffetch feed with
      | .ok items => items
      | .error _ => [])

/-- Embeds the `fetcher` closure of `feeds.fetch_links`
(feeds.py:120-140): raise when nothing was collected, else the collected
items sorted by published timestamp descending, capped at `limit`.
`nowIso` is `datetime.now(tz=timezone.utc).isoformat()`. -/
def feeds_fetcher (df : DateFns) (ffetch : JVal → Except Unit (List JVal))
    (feed_list : List JVal) (limit : Nat) (nowIso : String) : Except Unit JVal :=
  let collected := feeds_collected ffetch feed_list
  if collected.isEmpty then .error ()
  else
    .ok (.obj [("updated_at", .str nowIso),
               ("items", .arr ((sort_desc (published_key df) collected).take limit))])

/-- Embeds `feeds._fallback_items` (feeds.py:100-113). -/
def fallback_items (feed_list : List JVal) (nowIso : String) : JVal :=
  .obj [("updated_at", .str nowIso),
        ("items", .arr ((feed_list.take 10).enum.map (fun p =>
          JVal.obj [("title", .str ("Offline cached placeholder #" ++ toString (p.1 + 1))),
                    ("url", jGetD p.2 "url" (.str "https://example.com")),
                    ("source", jGetD p.2 "name" (.str "feed")),
                    ("published", .str nowIso)])))]

/-- One normalized link row (feeds.py:153-161). -/
structure LinkRow where
  title : String
  url : String
  source : String
  published : String
  published_label : String

/-- The row built for one payload item in the output loop of
`feeds.fetch_links` (feeds.py:151-161).  The loop body evaluates
`utils.format_date(published)`; `utils` has no such attribute (it defines
`format_datetime`), so the row construction raises `AttributeError`
instead of producing a row. -/
def format_link_row (df : DateFns) (raw : JVal) : Except String LinkRow :=
  if utils_function_names.contains "format_date" then
    .ok { title := pyStr (jGetD raw "title" (.str "(untitled)"))
          url := pyStr (jGetD raw "url" (.str "#"))
          source := pyStr (jGetD raw "source" (.str "feed"))
          published := df.iso (jGet0 raw "published")
          published_label := df.label (jGet0 raw "published") }
  else .error "AttributeError: module utils has no attribute format_date"

/-- Environment of one `feeds.fetch_links` run: the parsed `feeds.yaml`,
the cache file state (read and freshness for the configured TTL), the
per-feed `_fetch_feed` outcomes, and the clock. -/
structure LinksEnv where
  feedsYaml : JVal
  cached : Option JVal
  fresh : Bool
  ffetch : JVal → Except Unit (List JVal)
  nowIso : String

/-- Embeds `feeds.fetch_links` (feeds.py:116-163): resolve the payload
through the cached-fetch ladder, then normalize `payload["items"][:limit]`
row by row.  An `.error` result models the run raising out of the
adapter (aborting the build, since `build.py` calls it bare). -/
def fetch_links (df : DateFns) (env : LinksEnv) (limit : Nat) :
    Except String (List LinkRow × String) :=
  let feed_list :=
    match jGet env.feedsYaml "feeds" with
    | some (.arr xs) => xs
    | _ => []
  let r := fetch_json_with_cache env.cached env.fresh
    (feeds_fetcher df env.ffetch feed_list limit env.nowIso)
    (.func (fun _ => fallback_items feed_list env.nowIso))
  let raws :=
    (match jGet r.payload "items" with
     | some (.arr xs) => xs
     | _ => []).take limit
  match raws.mapM (format_link_row df) with
  | .ok rows => .ok (rows, r.provenance)
  | .error e => .error e

/-- Models `int(s)` on a string: optional sign around a digit run,
surrounding whitespace stripped; `none` models `ValueError`. -/
def py_int_str (s : String) : Option Int :=
  match (py_strip s).data with
  | '-' :: rest => (py_to_nat_chars rest).map (fun n => -(n : Int))
  | '+' :: rest => (py_to_nat_chars rest).map (fun n => (n : Int))
  | t => (py_to_nat_chars t).map (fun n => (n : Int))

/-- Models `float(s)` on fixed-point decimal literals (the only shapes
the status probes produce): optional sign, digit run, optional fractional
digit run; `none` models `ValueError`. -/
def py_float_str (s : String) : Option ℚ :=
  let t := (py_strip s).data
  let p : ℚ × List Char :=
    match t with
    | '-' :: rest => (-1, rest)
    | '+' :: rest => (1, rest)
    | _ => (1, t)
  match split_once_aux ['.'] p.2 with
  | none => (py_to_nat_chars p.2).map (fun n => p.1 * (n : ℚ))
  | some (w, f) =>
    if w = [] ∧ f = [] then none
    else if (w = [] ∨ (py_to_nat_chars w).isSome) ∧ (f = [] ∨ (py_to_nat_chars f).isSome) then
      some (p.1 * (((py_to_nat_chars w).getD 0 : ℚ)
        + ((py_to_nat_chars f).getD 0 : ℚ) / (10 : ℚ) ^ f.length))
    else none

/-- Python `int()` truncation toward zero on a float. -/
def py_trunc (q : ℚ) : Int :=
  if q < 0 then ⌈q⌉ else ⌊q⌋

/-- Models `float(x)` on a JSON value; `none` models the
`TypeError`/`ValueError` the conversion raises. -/
def py_float (v : JVal) : Option ℚ :=
  match v with
  | .num q => some q
  | .str s => py_float_str s
  | .bool b => some (if b then 1 else 0)
  | _ => none

/-- Models `int(x)` where the conversion succeeds (the failure cases are
outside every claim; unconvertible values map to 0). -/
def py_int (v : JVal) : Int :=
  match v with
  | .num q => py_trunc q
  | .str s => (py_int_str s).getD 0
  | .bool b => if b then 1 else 0
  | _ => 0

/-- Outcome of the `subprocess.run(["ssh", ...])` call: `raised` models
`TimeoutExpired` (or any other exception of the call), `completed`
carries the return code and raw stdout. -/
inductive SshRun where
  | raised
  | completed (returncode : Int) (stdout : String)

/-- Environment of one `_collect_remote_metrics_via_ssh` run: the status
settings dict, the SSH call outcome, the `read_json` of
`cache/status_remote.json`, the local `/proc` reads used as last resort,
and the clock rendering for the written payload. -/
structure SshEnv where
  settings : JVal
  run : SshRun
  remoteCache : Option JVal
  localUptime : Option ℚ
  localCpu : Option ℚ
  nowIso : String

/-- The metrics dict `_collect_remote_metrics_via_ssh` returns
(status.py:179-207). -/
structure MetricsResult where
  uptime_seconds : Option ℚ
  cpu_temp_c : Option ℚ
  metrics_stale : Bool
  metrics_source : String

/-- The successful part of the `try` block of
`_collect_remote_metrics_via_ssh` (status.py:139-177): `none` models any
raise (missing target, SSH exception/timeout, non-zero exit, empty
output, unparseable uptime line); `some` carries the parsed uptime
seconds and CPU temperature. -/
def ssh_attempt (env : SshEnv) : Option (Int × Option ℚ) :=
  let target := py_strip (pyStr (jGetD env.settings "ssh_target" (.str "")))
  if target = "" then none
  else
    match env.run with
    | .raised => none
    | .completed rc stdout =>
      if rc ≠ 0 then none
      else
        match ssh_stdout_lines stdout with
        | [] => none
        | l0 :: rest =>
          match (py_float_str l0).map py_trunc with
          | none => none
          | some u =>
            let cpu : Option ℚ :=
              match rest with
              | [] => none
              | l1 :: _ =>
                match py_int_str l1 with
                | some n => some ((n : ℚ) / 1000)
                | none => none
            some (u, cpu)

/-- The cached-reading rescue of the `except` branch (status.py:186-200):
`some` when the remote cache is a dict whose `uptime_seconds` converts
via `int(float(...))` and whose `cpu_temp_c` is absent/None or converts
via `float`; `none` models falling through the inner `pass`. -/
def remote_cache_rescue (cached : Option JVal) : Option (Int × Option ℚ) :=
  match cached with
  | some (.obj fs) =>
    match py_float (jGet0 (.obj fs) "uptime_seconds") with
    | none => none
    | some qu =>
      match jGet (.obj fs) "cpu_temp_c" with
      | none => some (py_trunc qu, none)
      | some .null => some (py_trunc qu, none)
      | some v =>
        match py_float v with
        | some qc => some (py_trunc qu, some qc)
        | none => none
  | _ => none

/-- Embeds `status._collect_remote_metrics_via_ssh` (status.py:132-207),
paired with the JSON document written to `cache/status_remote.json`
(`none`: unchanged). -/
def collect_remote_metrics_via_ssh (env : SshEnv) : MetricsResult × Option JVal :=
  match ssh_attempt env with
  | some (u, cpu) =>
    ({ uptime_seconds := some (u : ℚ), cpu_temp_c := cpu,
       metrics_stale := false, metrics_source := "remote_ssh" },
     some (.obj [("fetched_at", .str env.nowIso), ("uptime_seconds", .num (u : ℚ)),
                 ("cpu_temp_c", match cpu with | some q => .num q | none => .null)]))
  | none =>
    let allow := truthy (jGetD env.settings "allow_fallback_cache" (.bool true))
    match (if allow then remote_cache_rescue env.remoteCache else none) with
    | some (u, cpu) =>
      ({ uptime_seconds := some (u : ℚ), cpu_temp_c := cpu,
         metrics_stale := true, metrics_source := "remote_cache" }, none)
    | none =>
      ({ uptime_seconds := env.localUptime, cpu_temp_c := env.localCpu,
         metrics_stale := true, metrics_source := "local_fallback" }, none)

/-- Embeds `status._status_settings` (status.py:38-42). -/
def status_settings (config : JVal) : JVal :=
  match jGet config "status" with
  | some (.obj fs) => .obj fs
  | _ => .obj []

/-- The normalized `metrics_mode` setting (status.py:212, 251). -/
def status_metrics_mode (config : JVal) : String :=
  py_lower (py_strip (pyStr (jGetD (status_settings config) "metrics_mode" (.str "local"))))

/-- The `ttl_seconds` value `status.fetch_status` hands to the cached
fetch ladder (status.py:249-253): zero in remote-SSH mode. -/
def fetch_status_ttl_seconds (config : JVal) : Int :=
  let ttl := py_int (jGetD config "status_ttl_minutes" (.num 10))
  if status_metrics_mode config = "remote_ssh" then 0 else ttl * 60

/-- The SSH failure modes named by the spec: missing target, a raising
call (timeout included), non-zero exit, empty output. -/
def ssh_listed_failure (env : SshEnv) : Prop :=
  py_strip (pyStr (jGetD env.settings "ssh_target" (.str ""))) = "" ∨
  env.run = SshRun.raised ∨
  (∃ rc out, env.run = SshRun.completed rc out ∧ rc ≠ 0) ∨
  (∃ rc out, env.run = SshRun.completed rc out ∧ ssh_stdout_lines out = [])

/-- A trivial date-function instantiation for concrete runs. -/
def df0 : DateFns := ⟨fun _ => "", fun _ => "", fun _ => 0⟩

/-- A date-function instantiation whose ordering key reads numeric
timestamps, for concrete feed runs. -/
def df_ts_num : DateFns :=
  ⟨fun _ => "", fun _ => "",
   fun v => match v with | .num q => py_trunc q | _ => 0⟩

/-- A well-formed payload whose track is the silence sentinel. -/
def silencio_payload : JVal := .obj [("track", .str "Silencio")]

/-- A configuration with an absolute now-playing source URL. -/
def np_config_example : JVal :=
  .obj [("now_playing", .obj [("source_url", .str "https://radio.example/api/now")])]

/-- A run with a fresh cached silence payload and a failing fetch. -/
def np_env_fresh_silence : NowEnv :=
  ⟨np_config_example, some silencio_payload, true, .error ()⟩

/-- A run with no cache whose fetch returns a silence payload. -/
def np_env_fetch_silence : NowEnv :=
  ⟨np_config_example, none, false, .ok silencio_payload⟩

/-- A payload with a playable track. -/
def good_now_payload : JVal :=
  .obj [("track", .str "Warm Breeze"), ("artist", .str "Blur FM")]

/-- A run with no cache whose fetch returns a playable payload. -/
def np_env_fetch_good : NowEnv :=
  ⟨np_config_example, none, false, .ok good_now_payload⟩

/-- A legacy-endpoint run with nothing configured and nothing cached. -/
def legacy_env0 : LegacyEnv :=
  ⟨none, false, .error (), false, none, false, .error (), false⟩

/-- A feeds run: one configured feed, no cache, a successful fetch of one
entry. -/
def links_env_example : LinksEnv :=
  ⟨.obj [("feeds", .arr [.obj [("name", .str "blog"), ("url", .str "https://example.org/rss")]])],
   none, false,
   fun _ => .ok [.obj [("title", .str "Hello"), ("url", .str "https://example.org/p1"),
                       ("source", .str "blog"), ("published", .str "2024-01-01T00:00:00+00:00")]],
   "2024-01-02T00:00:00+00:00"⟩

/-- Two configured feeds: `a` yields two entries (out of timestamp
order), `b` raises. -/
def feeds_list_example : List JVal :=
  [.obj [("name", .str "a"), ("url", .str "https://a.example/rss")],
   .obj [("name", .str "b"), ("url", .str "https://b.example/rss")]]

/-- The `_fetch_feed` outcomes for `feeds_list_example`. -/
def feeds_oracle_example : JVal → Except Unit (List JVal) :=
  fun feed =>
    if pyStr (jGetD feed "name" (.str "")) = "a" then
      .ok [.obj [("title", .str "old"), ("published", .num 5)],
           .obj [("title", .str "new"), ("published", .num 9)]]
    else .error ()

/-- A remote-SSH run whose SSH command exits non-zero, with a cached
remote reading available. -/
def ssh_env_example : SshEnv :=
  ⟨.obj [("ssh_target", .str "pi@radio")],
   .completed 255 "",
   some (.obj [("uptime_seconds", .num 42)]),
   some 7, none, "2024-01-02T00:00:00+00:00"⟩

/-- A configuration selecting remote-SSH metrics mode. -/
def status_config_remote : JVal :=
  .obj [("status", .obj [("metrics_mode", .str "remote_ssh")])]

/-- The liveness/provenance discipline of one now-playing resolution
triple `(state, history, source_tag)`: the state is marked live exactly
when it reports a payload (`available`) obtained under a `"live"`-headed
provenance tag, and any resolution whose tag is not `"live"`-headed
carries an empty history list. -/
def live_provenance_ok (r : NormalizedNow × List HistRow × String) : Prop :=
  (r.1.live = true ↔ (r.1.available = true ∧ py_starts_with r.2.2 "live/" = true)) ∧
  (py_starts_with r.2.2 "live/" = false → r.2.1 = [])

/-- C8: `is_cache_fresh` returns false whenever `ttl_seconds ≤ 0` or the
cache file is absent; otherwise it returns true exactly when
`now − mtime ≤ ttl_seconds` (utils.py:54-58). -/
theorem is_cache_fresh_iff (e : Bool) (m n : ℚ) (t : Int) :
    is_cache_fresh e m n t = true ↔ (0 < t ∧ e = true ∧ n - m ≤ (t : ℚ)) := by
  unfold is_cache_fresh
  split
  · rename_i h
    simp only [Bool.false_eq_true, false_iff]
    rintro ⟨ht, he, -⟩
    rcases h with h | h
    · omega
    · rw [he] at h; exact Bool.noConfusion h
  · rename_i h
    push_neg at h
    simp only [decide_eq_true_eq]
    constructor
    · intro hle
      refine ⟨by omega, ?_, hle⟩
      cases e with
      | true => rfl
      | false => exact absurd rfl h.2
    · rintro ⟨-, -, hle⟩; exact hle

/-- C1: when the fetcher raises (and so the fetch was attempted, i.e. the
fresh-cache branch was not taken), `fetch_json_with_cache` returns the
cached payload with provenance `"stale"` whenever a readable cached entry
exists, and otherwise the fallback value (calling it when callable) with
provenance `"fallback"`; the exception never propagates (the embedding is
total). -/
theorem fetch_json_with_cache_error_degrades (cached : Option JVal) (fresh : Bool)
    (fb : Fallback) (h : ¬(cached.isSome = true ∧ fresh = true)) :
    fetch_json_with_cache cached fresh (.error ()) fb =
      match cached with
      | some c => ⟨c, "stale", none⟩
      | none => ⟨fallback_value fb, "fallback", none⟩ := by
  cases cached with
  | none => cases fresh <;> rfl
  | some c =>
    cases fresh with
    | false => rfl
    | true => exact absurd ⟨rfl, rfl⟩ h

/-- Closed instance of `fetch_json_with_cache_error_degrades`: a stale
cached entry is served on fetch failure, and with no cache the callable
fallback's value is returned. -/
theorem fetch_json_with_cache_error_degrades_witness :
    fetch_json_with_cache (some (.str "x")) false (.error ()) (.value .null) =
      ⟨.str "x", "stale", none⟩ ∧
    fetch_json_with_cache none false (.error ()) (.func fun _ => .num 7) =
      ⟨.num 7, "fallback", none⟩ :=
  ⟨fetch_json_with_cache_error_degrades (some (.str "x")) false (.value .null) (by simp),
   fetch_json_with_cache_error_degrades none false (.func fun _ => .num 7) (by simp)⟩

/-- C2: with a readable cached entry for which `is_cache_fresh` holds,
the resolution returns the cached payload with provenance `"cache"`,
writes nothing, and is independent of the fetcher and fallback (the
fetcher is never invoked). -/
theorem fetch_json_with_cache_fresh_cache_hit (c : JVal) (e : Bool) (m n : ℚ) (t : Int)
    (h : is_cache_fresh e m n t = true) (f g : Except Unit JVal) (fb fb' : Fallback) :
    fetch_json_with_cache (some c) (is_cache_fresh e m n t) f fb = ⟨c, "cache", none⟩ ∧
    fetch_json_with_cache (some c) (is_cache_fresh e m n t) f fb =
      fetch_json_with_cache (some c) (is_cache_fresh e m n t) g fb' := by
  rw [h]; exact ⟨rfl, rfl⟩

/-- Closed instance of `fetch_json_with_cache_fresh_cache_hit` at a
one-second-old cache file with a sixty-second TTL. -/
theorem fetch_json_with_cache_fresh_cache_hit_witness :
    fetch_json_with_cache (some (.str "x")) (is_cache_fresh true 100 101 60)
        (.error ()) (.value .null) = ⟨.str "x", "cache", none⟩ ∧
    fetch_json_with_cache (some (.str "x")) (is_cache_fresh true 100 101 60)
        (.error ()) (.value .null) =
      fetch_json_with_cache (some (.str "x")) (is_cache_fresh true 100 101 60)
        (.ok (.num 1)) (.func fun _ => .num 7) :=
  fetch_json_with_cache_fresh_cache_hit (.str "x") true 100 101 60
    (by norm_num [is_cache_fresh]) (.error ()) (.ok (.num 1)) (.value .null)
    (.func fun _ => .num 7)

/-- C10: the normalized now-playing history has exactly
`min (length input) 30` rows; row `i` (for `i < 30`) is the normalization
of raw item `i` (each row carrying the five fixed `HistRow` fields), and
every raw item beyond the 30th is dropped. -/
theorem normalize_history_take_30 (df : DateFns) (hs : List JVal)
    (hdict : ∀ x ∈ hs, isJObj x = true) :
    (normalize_history df hs).length = min hs.length 30 ∧
    ∀ i : Nat, (normalize_history df hs)[i]? =
      if i < 30 then (hs[i]?).map (normalize_history_row df) else none := by
  constructor
  · simp [normalize_history, Nat.min_comm]
  · intro i
    by_cases hi : i < 30
    · simp [normalize_history, List.getElem?_take_of_lt hi, hi]
    · have hlen : (normalize_history df hs).length ≤ i := by
        simp only [normalize_history, List.length_map, List.length_take]
        omega
      simp [List.getElem?_eq_none hlen, hi]

/-- Closed instance of `normalize_history_take_30` at a one-item history. -/
theorem normalize_history_take_30_witness :
    (normalize_history df0 [JVal.obj [("track", JVal.str "A")]]).length = min 1 30 ∧
    (normalize_history df0 [JVal.obj [("track", JVal.str "A")]])[0]? =
      if 0 < 30 then
        (([JVal.obj [("track", JVal.str "A")]] : List JVal)[0]?).map (normalize_history_row df0)
      else none :=
  ⟨(normalize_history_take_30 df0 [JVal.obj [("track", JVal.str "A")]]
      (by intro x hx; simp only [List.mem_singleton] at hx; subst hx; rfl)).1,
   (normalize_history_take_30 df0 [JVal.obj [("track", JVal.str "A")]]
      (by intro x hx; simp only [List.mem_singleton] at hx; subst hx; rfl)).2 0⟩

/-- C9: whenever `_fetch_from_source_endpoint` writes
`cache/now_source.json`, what it writes is exactly the payload a
successful fetch returned in this run, and that payload passes the
playable-now validity gate; hence on a fetch error, and on a validation
failure of a fetched payload, the cache file is left unchanged, so the
cache never stores a payload lacking a playable now item at write time. -/
theorem now_source_cache_write_only_validated (df : DateFns) (env : NowEnv) (p : JVal)
    (h : (fetch_from_source_endpoint df env).2 = some p) :
    env.fetchResult = .ok p ∧
    ((parse_source_payload p (np_mount env.config)).1).isSome = true := by
  unfold fetch_from_source_endpoint at h
  repeat' split at h
  all_goals (simp only [apply_ite Prod.snd] at h)
  all_goals (repeat' split at h)
  all_goals simp_all

/-- Closed instance of `now_source_cache_write_only_validated`: a
successful fetch of a playable payload writes exactly that payload, and
it passes the validity gate. -/
theorem now_source_cache_write_only_validated_witness :
    NowEnv.fetchResult np_env_fetch_good = .ok good_now_payload ∧
    ((parse_source_payload good_now_payload (np_mount np_env_fetch_good.config)).1).isSome = true :=
  now_source_cache_write_only_validated df0 np_env_fetch_good good_now_payload rfl

/-- C4: (1) any now-payload candidate whose cleaned track title is empty
or a silence sentinel (`"silence"`/`"silencio"`, case-insensitive) is
rejected by `_parse_source_payload` — no playable now item results, even
from an otherwise well-formed payload; (2) this gate runs on the
cache-fresh path too: a fresh cached payload failing it yields the
unavailable state (`"cache/none"`) with no cache write; (3) a fetched
payload failing it makes the run behave exactly as if the fetch itself
had raised (serve the stale cache when one exists, else unavailable). -/
theorem now_playing_silence_gate :
    (∀ payload mount np, now_candidate payload mount = some np →
      (py_lower (clean_text (jGet0 np "track")) = "" ∨
       py_lower (clean_text (jGet0 np "track")) = "silence" ∨
       py_lower (clean_text (jGet0 np "track")) = "silencio") →
      (parse_source_payload payload mount).1 = none) ∧
    (∀ df env c, env.cachedPayload = some c → env.cacheFresh = true →
      np_source_url env.config ≠ "" →
      resolve_source_url env.config (np_source_url env.config) ≠ "" →
      (parse_source_payload (pyOr c (.obj [])) (np_mount env.config)).1 = none →
      fetch_from_source_endpoint df env = (some (unavailable_now, [], "cache/none"), none)) ∧
    (∀ df env fetched, env.fetchResult = .ok fetched →
      (parse_source_payload fetched (np_mount env.config)).1 = none →
      fetch_from_source_endpoint df env =
        fetch_from_source_endpoint df { env with fetchResult := .error () }) := by
  refine ⟨?_, ?_, ?_⟩
  · intro payload mount np hnc hbad
    cases payload with
    | obj fs =>
      simp only [parse_source_payload]
      split
      · rfl
      · rw [hnc]
        rcases hbad with hb | hb | hb <;> simp [hb]
    | null => rfl
    | bool b => rfl
    | num q => rfl
    | str s => rfl
    | arr xs => rfl
  · intro df env c hc hf hurl hres hparse
    rcases hpe : parse_source_payload (pyOr c (.obj [])) (np_mount env.config) with ⟨o, hist⟩
    rw [hpe] at hparse
    simp only at hparse
    subst hparse
    simp only [fetch_from_source_endpoint, hc, hf]
    rw [if_neg hurl, if_neg hres]
    simp only [finish_payload, hpe]
    rfl
  · intro df env fetched hok hparse
    simp only [fetch_from_source_endpoint, hok, hparse]

/-- Closed instance of `now_playing_silence_gate`: the payload
`{"track": "Silencio"}` is rejected as non-playable; a fresh cache of it
resolves to the unavailable state; fetching it behaves exactly like a
failed fetch. -/
theorem now_playing_silence_gate_witness :
    (parse_source_payload silencio_payload "").1 = none ∧
    fetch_from_source_endpoint df0 np_env_fresh_silence =
      (some (unavailable_now, [], "cache/none"), none) ∧
    fetch_from_source_endpoint df0 np_env_fetch_silence =
      fetch_from_source_endpoint df0 { np_env_fetch_silence with fetchResult := .error () } :=
  ⟨now_playing_silence_gate.1 silencio_payload "" (extract_now_payload silencio_payload "")
      rfl (Or.inr (Or.inr rfl)),
   now_playing_silence_gate.2.1 df0 np_env_fresh_silence silencio_payload rfl rfl
      (by decide) (by decide) rfl,
   now_playing_silence_gate.2.2 df0 np_env_fetch_silence silencio_payload rfl rfl⟩

/-- C3 (code bug evidence): `utils` defines no `format_date` attribute
(only `format_datetime`), so a `fetch_links` run whose resolved payload
contains an item — here one configured feed whose fetch succeeds with one
entry — raises `AttributeError` out of the adapter instead of returning
an `(items, source)` pair, aborting the build. -/
theorem fetch_links_aborts_on_items :
    utils_function_names.contains "format_date" = false ∧
    fetch_links df0 links_env_example 120 =
      .error "AttributeError: module utils has no attribute format_date" :=
  ⟨rfl, rfl⟩

/-- Every SSH failure mode the spec lists makes the `try` block of
`_collect_remote_metrics_via_ssh` raise. -/
theorem ssh_listed_failure_attempt_none (env : SshEnv) (h : ssh_listed_failure env) :
    ssh_attempt env = none := by
  simp only [ssh_attempt]
  rcases h with h | h | ⟨rc, out, hr, hrc⟩ | ⟨rc, out, hr, hout⟩
  · rw [if_pos h]
  · simp [h]
  · simp [hr, hrc]
  · simp [hr, hout]

/-- C6: with `metrics_mode = "remote_ssh"`, (1) `fetch_status` hands a
zero TTL to the cached-fetch ladder; (2) the ladder with a zero TTL never
serves the top-level status cache (a fresh collection is attempted every
build); (3) on any listed SSH failure (missing target, raising call or
timeout, non-zero exit, empty output) nothing is written to the secondary
remote cache, the result is marked `metrics_stale = true`, and it is the
last cached remote reading tagged `"remote_cache"` when a usable cached
reading exists (fallback allowed, dict payload, convertible fields), else
the local reads tagged `"local_fallback"`. -/
theorem status_remote_ssh_bypass_and_fallback (config : JVal) (e : Bool) (m n : ℚ)
    (cached : Option JVal) (f : Except Unit JVal) (fb : Fallback) (env : SshEnv)
    (hmode : status_metrics_mode config = "remote_ssh")
    (hfail : ssh_listed_failure env) :
    fetch_status_ttl_seconds config = 0 ∧
    (fetch_json_with_cache cached (is_cache_fresh e m n (fetch_status_ttl_seconds config))
      f fb).provenance ≠ "cache" ∧
    (collect_remote_metrics_via_ssh env).2 = none ∧
    (collect_remote_metrics_via_ssh env).1.metrics_stale = true ∧
    (collect_remote_metrics_via_ssh env).1 =
      (match (if truthy (jGetD env.settings "allow_fallback_cache" (.bool true))
              then remote_cache_rescue env.remoteCache else none) with
       | some (u, cpu) => ⟨some (u : ℚ), cpu, true, "remote_cache"⟩
       | none => ⟨env.localUptime, env.localCpu, true, "local_fallback"⟩) := by
  have h0 : fetch_status_ttl_seconds config = 0 := by
    simp [fetch_status_ttl_seconds, hmode]
  have hfresh : is_cache_fresh e m n 0 = false := by
    simp [is_cache_fresh]
  have ha := ssh_listed_failure_attempt_none env hfail
  refine ⟨h0, ?_, ?_⟩
  · rw [h0, hfresh]
    cases cached <;> cases f <;> cases fb <;> simp [fetch_json_with_cache]
  · simp only [collect_remote_metrics_via_ssh, ha]
    cases hres : (if truthy (jGetD env.settings "allow_fallback_cache" (.bool true))
        then remote_cache_rescue env.remoteCache else none) with
    | none => simp [hres]
    | some p => cases p with | mk u cpu => simp [hres]

/-- Closed instance of `status_remote_ssh_bypass_and_fallback`: remote
mode zeroes the TTL, and an SSH exit code 255 with a usable cached remote
reading degrades to that reading tagged `"remote_cache"`. -/
theorem status_remote_ssh_bypass_and_fallback_witness :
    fetch_status_ttl_seconds status_config_remote = 0 ∧
    (collect_remote_metrics_via_ssh ssh_env_example).2 = none ∧
    (collect_remote_metrics_via_ssh ssh_env_example).1.metrics_stale = true ∧
    (collect_remote_metrics_via_ssh ssh_env_example).1.metrics_source = "remote_cache" := by
  have h := status_remote_ssh_bypass_and_fallback status_config_remote true 0 0 none
    (.error ()) (.value .null) ssh_env_example rfl
    (Or.inr (Or.inr (Or.inl ⟨255, "", rfl, by decide⟩)))
  exact ⟨h.1, h.2.2.1, h.2.2.2.1, by rw [h.2.2.2.2]; rfl⟩

/-- Inserting into the stable descending sort permutes the consed list. -/
theorem insert_desc_perm (key : JVal → Int) (x : JVal) (l : List JVal) :
    (insert_desc key x l).Perm (x :: l) := by
  induction l with
  | nil => exact List.Perm.refl _
  | cons y ys ih =>
    simp only [insert_desc]
    split
    · exact (List.Perm.cons y ih).trans (List.Perm.swap x y ys)
    · exact List.Perm.refl _

/-- The stable descending sort permutes its input. -/
theorem sort_desc_perm (key : JVal → Int) (l : List JVal) :
    (sort_desc key l).Perm l := by
  induction l with
  | nil => exact List.Perm.refl _
  | cons x xs ih =>
    exact (insert_desc_perm key x (sort_desc key xs)).trans (List.Perm.cons x ih)

/-- Insertion preserves descending pairwise order. -/
theorem insert_desc_sorted (key : JVal → Int) (x : JVal) (l : List JVal)
    (h : l.Pairwise (fun a b => key b ≤ key a)) :
    (insert_desc key x l).Pairwise (fun a b => key b ≤ key a) := by
  induction l with
  | nil => simp [insert_desc]
  | cons y ys ih =>
    rcases List.pairwise_cons.mp h with ⟨hy, hys⟩
    simp only [insert_desc]
    split
    · rename_i hlt
      refine List.pairwise_cons.mpr ⟨?_, ih hys⟩
      intro b hb
      rcases List.mem_cons.mp ((insert_desc_perm key x ys).mem_iff.mp hb) with hb2 | hb2
      · subst hb2; omega
      · exact hy b hb2
    · rename_i hge
      refine List.pairwise_cons.mpr ⟨?_, h⟩
      intro b hb
      rcases List.mem_cons.mp hb with hb2 | hb2
      · subst hb2; omega
      · have := hy b hb2; omega

/-- The stable descending sort is sorted (descending pairwise). -/
theorem sort_desc_sorted (key : JVal → Int) (l : List JVal) :
    (sort_desc key l).Pairwise (fun a b => key b ≤ key a) := by
  induction l with
  | nil => simp [sort_desc]
  | cons x xs ih => exact insert_desc_sorted key x (sort_desc key xs) ih

/-- C7: a live feeds batch tolerates individual feed failures: the
fetcher collects exactly the entries of the feeds with a non-blank URL
whose fetch succeeded (raising feeds are skipped), fails only when that
collection is empty, and otherwise returns the collection sorted by
published timestamp descending and capped at the configured limit. -/
theorem feeds_batch_tolerates_individual_failures (df : DateFns)
    (ffetch : JVal → Except Unit (List JVal)) (fl : List JVal) (limit : Nat)
    (nowIso : String) (hdict : ∀ x ∈ fl, isJObj x = true) :
    (feeds_fetcher df ffetch fl limit nowIso = .error () ↔
      feeds_collected ffetch fl = []) ∧
    (feeds_collected ffetch fl ≠ [] →
      ∃ s : List JVal, s.Perm (feeds_collected ffetch fl) ∧
        s.Pairwise (fun a b => published_key df b ≤ published_key df a) ∧
        feeds_fetcher df ffetch fl limit nowIso =
          .ok (.obj [("updated_at", .str nowIso), ("items", .arr (s.take limit))])) := by
  constructor
  · constructor
    · intro h
      by_cases hc : (feeds_collected ffetch fl).isEmpty
      · exact List.isEmpty_iff.mp hc
      · rw [feeds_fetcher, if_neg hc] at h
        exact Except.noConfusion h
    · intro h
      rw [feeds_fetcher, if_pos (by rw [h]; rfl)]
  · intro hne
    refine ⟨sort_desc (published_key df) (feeds_collected ffetch fl),
      sort_desc_perm _ _, sort_desc_sorted _ _, ?_⟩
    rw [feeds_fetcher, if_neg (by simpa using hne)]

/-- Closed instance of `feeds_batch_tolerates_individual_failures`: with
one feed raising and one succeeding, the batch does not fail. -/
theorem feeds_batch_tolerates_individual_failures_witness :
    feeds_fetcher df_ts_num feeds_oracle_example feeds_list_example 120 "t" ≠ .error () := by
  have h := (feeds_batch_tolerates_individual_failures df_ts_num feeds_oracle_example
    feeds_list_example 120 "t" (by decide)).1
  intro hcontra
  have hnil := h.mp hcontra
  have hcol : feeds_collected feeds_oracle_example feeds_list_example =
      [.obj [("title", .str "old"), ("published", .num 5)],
       .obj [("title", .str "new"), ("published", .num 9)]] := rfl
  rw [hcol] at hnil
  exact List.noConfusion hnil

/-- A string prefixes its own append. -/
theorem py_starts_with_append (s r : String) : py_starts_with (s ++ r) s = true := by
  simp [py_starts_with]

/-- The cached-fetch ladder only ever reports one of its four provenance
tags. -/
theorem fetch_provenance_mem (cached : Option JVal) (fresh : Bool)
    (f : Except Unit JVal) (fb : Fallback) :
    (fetch_json_with_cache cached fresh f fb).provenance ∈
      (["cache", "live", "stale", "fallback"] : List String) := by
  cases cached <;> cases fresh <;> cases f <;> simp [fetch_json_with_cache]

/-- A payload with a playable now item is truthy (`payload or {}` keeps
it). -/
theorem parse_some_truthy (p : JVal) (m : String) (np : JVal)
    (h : (parse_source_payload p m).1 = some np) : pyOr p (.obj []) = p := by
  cases p with
  | obj fs =>
    cases fs with
    | nil =>
      have hz : (parse_source_payload (JVal.obj []) m).1 = none := rfl
      rw [hz] at h
      exact Option.noConfusion h
    | cons f0 fs2 => rfl
  | null => exact Option.noConfusion h
  | bool b => exact Option.noConfusion h
  | num q => exact Option.noConfusion h
  | str s => exact Option.noConfusion h
  | arr xs => exact Option.noConfusion h

/-- On the live branch, `finish_payload` re-parses the validated payload
and serves it live with its history. -/
theorem finish_payload_live (df : DateFns) (mount : String) (fetched np : JVal)
    (h : (parse_source_payload fetched mount).1 = some np) :
    finish_payload df mount fetched "live" =
      (normalize_now df np true, normalize_history df (parse_source_payload fetched mount).2,
       "live/live") := by
  have hq := parse_some_truthy fetched mount np h
  rcases hp : parse_source_payload fetched mount with ⟨o, hist⟩
  rw [hp] at h
  simp only at h
  subst h
  simp only [finish_payload, hq, hp]
  rfl

/-- An unavailable result satisfies the liveness discipline. -/
theorem live_provenance_ok_unavailable (s : String) :
    live_provenance_ok (unavailable_now, [], s) := by
  constructor
  · simp [unavailable_now]
  · intro _; rfl

/-- A non-live normalized result with an empty history satisfies the
liveness discipline when its tag is not `"live"`-headed. -/
theorem live_provenance_ok_nonlive (df : DateFns) (np : JVal) (b : Bool) (hb : b = false)
    (s : String) (hsw : py_starts_with s "live/" = false) :
    live_provenance_ok (normalize_now df np b, [], s) := by
  subst hb
  constructor
  · simp [normalize_now, hsw]
  · intro _; rfl

/-- A live normalized result under a `"live/"`-headed tag satisfies the
liveness discipline. -/
theorem live_provenance_ok_live (df : DateFns) (np : JVal) (hist : List HistRow)
    (rest : String) :
    live_provenance_ok (normalize_now df np true, hist, "live/" ++ rest) := by
  constructor
  · simp [normalize_now, py_starts_with_append]
  · intro hsw
    rw [py_starts_with_append] at hsw
    exact Bool.noConfusion hsw

/-- A source-name with `"/disabled"` appended is never `"live/"`-headed
for the tags the now adapter produces (other than `"live"` itself). -/
theorem starts_with_disabled_false (ns : String)
    (hmem : ns ∈ (["cache", "live", "stale", "fallback", "cache-local", "missing"] : List String))
    (hne : ns ≠ "live") :
    py_starts_with (ns ++ "/disabled") "live/" = false := by
  fin_cases hmem
  · decide
  · exact absurd rfl hne
  · decide
  · decide
  · decide
  · decide

/-- A non-live `finish_payload` resolution satisfies the liveness
discipline. -/
theorem live_provenance_ok_finish (df : DateFns) (mount : String) (p : JVal) (s : String)
    (hsb : (s == "live") = false)
    (hsw2 : py_starts_with (s ++ "/disabled") "live/" = false) :
    live_provenance_ok (finish_payload df mount p s) := by
  unfold finish_payload
  rcases hp : parse_source_payload (pyOr p (.obj [])) mount with ⟨o, hist⟩
  cases o with
  | none =>
    refine ⟨?_, fun _ => rfl⟩
    simp [unavailable_now]
  | some np =>
    simp only [hsb, Bool.false_eq_true, if_false]
    exact live_provenance_ok_nonlive df np false rfl _ hsw2

/-- Every result the source-endpoint resolution hands back satisfies the
liveness discipline. -/
theorem live_provenance_ok_src (df : DateFns) (env : NowEnv)
    (r : NormalizedNow × List HistRow × String) (w : Option JVal)
    (h : fetch_from_source_endpoint df env = (some r, w)) :
    live_provenance_ok r := by
  simp only [fetch_from_source_endpoint] at h
  by_cases h1 : np_source_url env.config = ""
  · rw [if_pos h1] at h
    exact absurd h (by simp)
  · rw [if_neg h1] at h
    by_cases h2 : resolve_source_url env.config (np_source_url env.config) = ""
    · rw [if_pos h2] at h
      simp only [Prod.mk.injEq, Option.some.injEq] at h
      obtain ⟨rfl, -⟩ := h
      exact live_provenance_ok_unavailable _
    · rw [if_neg h2] at h
      repeat' split at h
      all_goals simp only [Prod.mk.injEq, Option.some.injEq] at h
      all_goals obtain ⟨rfl, -⟩ := h
      all_goals first
        | exact live_provenance_ok_unavailable _
        | exact live_provenance_ok_finish df _ _ "cache" (by decide) (by decide)
        | exact live_provenance_ok_finish df _ _ "stale" (by decide) (by decide)
        | (rw [finish_payload_live df _ _ _ (by assumption)]
           exact live_provenance_ok_live df _ _ "live")

/-- The legacy now-source tag is one of the six the code can produce. -/
theorem legacy_now_source_mem (config : JVal) (env : LegacyEnv) :
    (legacy_now_resolution config env).2 ∈
      (["cache", "live", "stale", "fallback", "cache-local", "missing"] : List String) := by
  simp only [legacy_now_resolution]
  by_cases hu : py_strip (pyStr (jGetD config "now_playing_url" (.str ""))) ≠ ""
  · rw [if_pos hu]
    have h4 := fetch_provenance_mem env.nowCached env.nowFresh env.nowFetch (.value (.obj []))
    simp only [List.mem_cons, List.not_mem_nil, or_false] at h4 ⊢
    rcases h4 with h | h | h | h <;> simp [h]
  · rw [if_neg hu]
    by_cases he : env.nowFileExists = true <;> simp [he]

/-- Every result the legacy resolution hands back satisfies the liveness
discipline. -/
theorem live_provenance_ok_legacy (df : DateFns) (config : JVal) (env : LegacyEnv) :
    live_provenance_ok (fetch_legacy_endpoints df config env) := by
  have hmem := legacy_now_source_mem config env
  rcases hnr : legacy_now_resolution config env with ⟨np0, ns⟩
  rw [hnr] at hmem
  simp only at hmem
  simp only [fetch_legacy_endpoints, hnr]
  split
  · exact live_provenance_ok_unavailable _
  · rename_i cand hcand
    by_cases hlive : (ns == "live") = true
    · have hns : ns = "live" := by simpa using hlive
      subst hns
      simp only [hlive]
      exact live_provenance_ok_live df cand _ ((legacy_hist_resolution config env).2)
    · have hlf : (ns == "live") = false := by simpa using hlive
      have hne : ns ≠ "live" := by intro hc; subst hc; simp at hlf
      simp only [hlf, Bool.false_eq_true, if_false]
      exact live_provenance_ok_nonlive df cand false rfl _
        (starts_with_disabled_false ns hmem hne)

/-- C5: for every now-playing resolution, the returned state is marked
`live = true` exactly when it reports a payload (`available = true`)
whose provenance tag is `"live"`-headed (a successful network fetch in
this run); any resolution whose provenance is not `"live"`-headed — in
particular one served from fresh or stale cache — reports the last known
track with `live = false` and an empty history list, even when the
cached payload contains history entries. -/
theorem fetch_now_live_iff_live_provenance (df : DateFns) (npEnv : NowEnv)
    (lgEnv : LegacyEnv) :
    live_provenance_ok (fetch_now df npEnv lgEnv).1 := by
  rcases hsrc : fetch_from_source_endpoint df npEnv with ⟨o, w⟩
  cases o with
  | some r =>
    have hok := live_provenance_ok_src df npEnv r w hsrc
    simp only [fetch_now, hsrc]
    exact hok
  | none =>
    simp only [fetch_now, hsrc]
    exact live_provenance_ok_legacy df npEnv.config lgEnv
